import Mathlib

/-!
A shallow embedding of `crous_notifier.py`, the single source file of the
crous-bot-notifier repository, together with theorems checking the
specification's claims about it.

Modelling conventions:
* A scraped residence record is a `Residence` structure; the Python dicts
  carrying the five fields `name, link, price, address, details` are embedded
  as association lists `List (String × String)`, and Python's
  `frozenset(d.items())` becomes `List.toFinset`.
* Snapshots are lists of residences, compared (as in `process_target`) through
  the finset of their frozensets.
* File side effects (email sends, CSV writes and appends) are recorded as an
  explicit `Event` trace; the persisted CSV files are the fields of
  `TargetState`.
* Machine floats of `int(float(...))` are modelled by exact decimal-string
  truncation; prices are `Nat`.
-/

namespace CrousNotifier

/-- A housing listing as scraped: the five string fields of the Python dict. -/
structure Residence where
  name : String
  link : String
  price : String
  address : String
  details : String
deriving DecidableEq, Repr

/-- Configuration of one monitoring target (one entry of `TARGETS_TO_MONITOR`). -/
structure Target where
  url : String
  folder_name : String
  send_immediate_alert : Bool
  send_daily_report : Bool
deriving DecidableEq, Repr

/-- One row of `daily_activity_log.csv`: timestamp, status, and the listing fields. -/
structure ActivityEntry where
  timestamp_cet : String
  status : String
  res : Residence
deriving DecidableEq, Repr

/-- One row of `removed_residences.log.csv`: the listing fields plus the removal stamp. -/
structure RemovedEntry where
  res : Residence
  removed_timestamp : String
deriving DecidableEq, Repr

/-- One row of `report_log.csv`. -/
structure ReportEntry where
  sent_date : String
  sent_time_cet : String
deriving DecidableEq, Repr

/-- The persisted per-target files, as in-memory tables. -/
structure TargetState where
  available : List Residence
  removedLog : List RemovedEntry
  activityLog : List ActivityEntry
  reportLog : List ReportEntry
deriving DecidableEq, Repr

/-- The items of the Python dict built for a residence by `scrape_crous_page`
(insertion order `name, link, price, address, details`). -/
def residence_items (r : Residence) : List (String × String) :=
  [("name", r.name), ("link", r.link), ("price", r.price),
   ("address", r.address), ("details", r.details)]

/-- `make_dict_hashable`: `frozenset(d.items())` on an association-list dict. -/
def make_dict_hashable (d : List (String × String)) : Finset (String × String) :=
  d.toFinset

/-- The frozenset of a residence's dict. -/
def itemsFinset (r : Residence) : Finset (String × String) :=
  make_dict_hashable (residence_items r)

/-- `{make_dict_hashable(d) for d in residences}` in `process_target`. -/
def toSnapshotSet (l : List Residence) : Finset (Finset (String × String)) :=
  (l.map itemsFinset).toFinset

/-- `current_set - previous_set` of `process_target`. -/
def added_set (cur prev : List Residence) : Finset (Finset (String × String)) :=
  toSnapshotSet cur \ toSnapshotSet prev

/-- `previous_set - current_set` of `process_target`. -/
def removed_set (cur prev : List Residence) : Finset (Finset (String × String)) :=
  toSnapshotSet prev \ toSnapshotSet cur

/-! ## Price normalizer (`get_price_as_int`) -/

/-- Python `str.strip()` on a character list. -/
def trimChars (l : List Char) : List Char :=
  ((l.dropWhile Char.isWhitespace).reverse.dropWhile Char.isWhitespace).reverse

/-- Value of a list of decimal digit characters (empty list is 0, as in
the integer part of a Python float literal such as `.5`). -/
def digitsToNat (l : List Char) : Nat :=
  l.foldl (fun n c => 10 * n + (c.toNat - 48)) 0

/-- Python `int(float(s))` on a string made only of ASCII digits and
periods: defined (`some`) exactly when there is at least one digit and at
most one period, in which case the value is truncated to the integer part.
This is the exact, total rendering used for the sort keys; the faithful
fallible model, with Unicode digits and the float overflow abort, is
`pyFloatOfClean` below. -/
def parse_float_digits (l : List Char) : Option Nat :=
  if l.any Char.isDigit ∧ l.count '.' ≤ 1 then
    some (digitsToNat (l.takeWhile Char.isDigit))
  else none

/-- The cleaning chain of `get_price_as_int`: drop euro signs, strip, keep the
part before a range separator, keep digits/commas/periods, comma to period.
Digits are taken as ASCII here (the sort-key model); `cleanPricePy` below
uses Python's full `str.isdigit()`. -/
def cleanPrice (price_str : String) : List Char :=
  let pc := trimChars (price_str.toList.filter (fun c => c ≠ '€'))
  let pc := if pc.contains 'à' then trimChars (pc.takeWhile (fun c => c ≠ 'à')) else pc
  let pc := pc.filter (fun c => c.isDigit || c = ',' || c = '.')
  pc.map (fun c => if c = ',' then '.' else c)

/-- `get_price_as_int` applied to a price string: the parsed value, or the
sentinel 9999 on the `except` branch. -/
def parsePriceString (s : String) : Nat :=
  match parse_float_digits (cleanPrice s) with
  | some n => n
  | none => 9999

/-- `get_price_as_int(residence)`: `residence.get('price', '0')` then parse. -/
def get_price_as_int (residence : List (String × String)) : Nat :=
  parsePriceString ((residence.lookup "price").getD "0")

/-- The sort key used on `Residence` values (their dict always has `price`). -/
def resKey (r : Residence) : Nat :=
  get_price_as_int (residence_items r)

/-- Insert into a list sorted by `key` (ascending). -/
def insertSorted {α : Type} (key : α → Nat) (a : α) : List α → List α
  | [] => [a]
  | b :: bs => if key a ≤ key b then a :: b :: bs else b :: insertSorted key a bs

/-- `list.sort(key=...)` : ascending sort by a `Nat` key. -/
def sortByKey {α : Type} (key : α → Nat) : List α → List α
  | [] => []
  | a :: as => insertSorted key a (sortByKey key as)

/-! ### Faithful fallible model of `int(float(...))`

The definitions above (`parse_float_digits`, `cleanPrice`,
`parsePriceString`, `get_price_as_int`) model the price only in its role as
an always-available sort key, over ASCII digits with exact arithmetic. The
program itself is not total here: CPython's `float()` accepts every Unicode
decimal digit and overflows silently to infinity above double range, and
`int(inf)` raises `OverflowError` — which is not in the caught tuple
`(ValueError, TypeError, AttributeError)` of line 151, so `get_price_as_int`
can raise and abort the run. The definitions below model that behaviour; the
digit tables are generated from the CPython reference interpreter. -/

/-- Base code points of the Unicode decimal-digit (category Nd) blocks: each
base `b` starts a run `b..b+9` whose characters carry decimal values 0..9 and
are accepted by Python `float()` (ASCII `0` is base 48). -/
def ndDigitBases : List Nat :=
  [48, 1632, 1776, 1984, 2406, 2534, 2662, 2790, 2918, 3046, 3174, 3302, 3430,
   3558, 3664, 3792, 3872, 4160, 4240, 6112, 6160, 6470, 6608, 6784, 6800, 6992,
   7088, 7232, 7248, 42528, 43216, 43264, 43472, 43504, 43600, 44016, 65296,
   66720, 68912, 69734, 69872, 69942, 70096, 70384, 70736, 70864, 71248, 71360,
   71472, 71904, 72016, 72784, 73040, 73120, 92768, 92864, 93008, 120782,
   120792, 120802, 120812, 120822, 123200, 123632, 125264, 130032]

/-- Code-point ranges of the characters for which Python `str.isdigit()` is
true but which are not decimal digits (superscripts, subscripts, circled
digits, ...): they pass the digit filter of `get_price_as_int` yet make
`float()` raise `ValueError`. -/
def digitNonDecimalRanges : List (Nat × Nat) :=
  [(178, 179), (185, 185), (4969, 4977), (6618, 6618), (8304, 8304),
   (8308, 8313), (8320, 8329), (9312, 9320), (9332, 9340), (9352, 9360),
   (9450, 9450), (9461, 9469), (9471, 9471), (10102, 10110), (10112, 10120),
   (10122, 10130), (68160, 68163), (69216, 69224), (69714, 69722),
   (127232, 127242)]

/-- Is the character a decimal digit that Python `float()` understands? -/
def isPyDecimalDigit (c : Char) : Bool :=
  ndDigitBases.any (fun b => b ≤ c.toNat && c.toNat ≤ b + 9)

/-- Is the character `str.isdigit()`-true but not a decimal digit? -/
def isPyDigitNonDecimal (c : Char) : Bool :=
  digitNonDecimalRanges.any (fun r => r.1 ≤ c.toNat && c.toNat ≤ r.2)

/-- Python `str.isdigit()`. -/
def pyIsDigit (c : Char) : Bool :=
  isPyDecimalDigit c || isPyDigitNonDecimal c

/-- Decimal value of a decimal digit under Python digit translation
(0 for non-digits, which the callers below never pass). -/
def pyDecimalVal (c : Char) : Nat :=
  match ndDigitBases.find? (fun b => b ≤ c.toNat && c.toNat ≤ b + 9) with
  | some b => c.toNat - b
  | none => 0

/-- Value of a run of decimal digits under Python digit translation. -/
def pyDigitsToNat (l : List Char) : Nat :=
  l.foldl (fun n c => 10 * n + pyDecimalVal c) 0

/-- The cleaning chain of `get_price_as_int` with Python's `str.isdigit()`
filter (Unicode digit characters included). -/
def cleanPricePy (price_str : String) : List Char :=
  let pc := trimChars (price_str.toList.filter (fun c => c ≠ '€'))
  let pc := if pc.contains 'à' then trimChars (pc.takeWhile (fun c => c ≠ 'à')) else pc
  let pc := pc.filter (fun c => pyIsDigit c || c = ',' || c = '.')
  pc.map (fun c => if c = ',' then '.' else c)

/-- Smallest real value that IEEE double rounding sends to infinity,
`2^1024 - 2^970`: `float()` of a cleaned numeric string returns `inf`
exactly when the string's value reaches it. The threshold is an integer and
a fractional part is below one, so the comparison reduces to the integer
part of the cleaned string. -/
def floatOverflowThreshold : Nat := 2 ^ 1024 - 2 ^ 970

/-- Outcome of Python `float()` on a cleaned price string (digit-kind
characters and periods only): a finite value recorded by its truncated
integer part, infinity on overflow, or `ValueError`. -/
inductive PyFloat where
  | val (intPart : Nat)
  | inf
  | err
deriving DecidableEq, Repr

/-- Python `float()` on the cleaned string: `ValueError` when a digit-type
non-decimal character is present, no decimal digit is present, or more than
one period is present; infinity when the value reaches the overflow
threshold; otherwise the finite value, recorded truncated. Finite values
below `2^53` — every realistic price — are represented exactly by the
double, so recording the exact truncation is faithful there, and the
theorems below use finite values only in that range. -/
def pyFloatOfClean (l : List Char) : PyFloat :=
  if l.any isPyDigitNonDecimal then PyFloat.err
  else if l.any isPyDecimalDigit ∧ l.count '.' ≤ 1 then
    let v := pyDigitsToNat (l.takeWhile isPyDecimalDigit)
    if floatOverflowThreshold ≤ v then PyFloat.inf else PyFloat.val v
  else PyFloat.err

/-- The faithful outcome of `get_price_as_int` on a price string:
`int(float(...))` truncates a finite value; the `except` clause turns
`ValueError` into the sentinel 9999; and `int(inf)` raises `OverflowError`,
which the caught tuple does not include, so the exception escapes and aborts
the run (`Except.error`). -/
def parsePriceStringPy (s : String) : Except String Nat :=
  match pyFloatOfClean (cleanPricePy s) with
  | PyFloat.val v => Except.ok v
  | PyFloat.inf => Except.error "OverflowError"
  | PyFloat.err => Except.ok 9999

/-- `get_price_as_int(residence)` under the fallible float model. -/
def get_price_as_int_py (residence : List (String × String)) : Except String Nat :=
  parsePriceStringPy ((residence.lookup "price").getD "0")

/-- `plural(n, singular, plural_form)`. -/
def plural (n : Nat) (singular plural_form : String) : String :=
  if n = 1 then singular else plural_form

/-- The alert subject built in `process_target` (default, both, added-only,
removed-only cases). -/
def alertSubject (folder : String) (num_added num_removed : Nat) : String :=
  if 0 < num_added ∧ 0 < num_removed then
    "Alerte CROUS Bot : +" ++ toString num_added ++ " " ++
      plural num_added "ajoutée" "ajoutées" ++ ", -" ++ toString num_removed ++ " " ++
      plural num_removed "retirée" "retirées"
  else if 0 < num_added then
    "Alerte CROUS Bot (+): " ++ toString num_added ++ " nouvelle" ++
      plural num_added "" "s" ++ " résidence" ++ plural num_added "" "s" ++
      " disponible" ++ plural num_added "" "s" ++ " !"
  else if 0 < num_removed then
    "Alerte CROUS Bot (-): " ++ toString num_removed ++ " résidence" ++
      plural num_removed "" "s" ++ " " ++ plural num_removed "n’est" "ne sont" ++
      " plus disponible" ++ plural num_removed "" "s"
  else "Alerte CROUS Bot (" ++ folder ++ "): Changement de disponibilité !"

/-! ## Notification composer -/

/-- `format_residence_html(residence, color)`. -/
def format_residence_html (r : Residence) (color : String) : String :=
  "\n    <div style=\"border-left: 3px solid " ++ color ++
  "; padding-left: 15px; margin-bottom: 20px;\">\n        <p style=\"margin:0; font-size: 18px; font-weight: bold;\">\n            <a href=\"" ++
  r.link ++ "\" style=\"color: " ++ color ++ "; text-decoration: none;\">" ++ r.name ++
  "</a>\n        </p>\n        <p style=\"margin:0; font-size: 16px; color: #333;\"><b>Prix:</b> " ++
  r.price ++ "</p>\n        <p style=\"margin:0; font-size: 14px; color: #555;\">" ++
  r.address ++ "</p>\n        <p style=\"margin:0; font-size: 14px; color: #555;\"><i>" ++
  r.details ++ "</i></p>\n    </div>\n    "

/-- Concatenation of the rendered residences of a section. -/
def joinMap (f : Residence → String) (l : List Residence) : String :=
  String.join (l.map f)

/-- The empty-state paragraph when the full availability list is empty. -/
def emptyListMsg : String :=
  "<p>Il n\x27y a actuellement aucune résidence disponible.</p>"

/-- The no-change paragraph of the daily summary. -/
def noChangeMsg : String :=
  "<p style=\"font-size: 16px; border-top: 2px solid #eee; margin-top: 20px; padding-top: 20px;\">Aucun changement de disponibilité n\x27a été détecté aujourd\x27hui.</p>"

/-- The shared HTML head and `<h1>` of both email bodies. -/
def bodyHeader (title : String) : String :=
  "\n    <html><head><style>body \x7bfont-family: Arial, sans-serif; color: #333;\x7d</style></head>\n    <body style=\"margin: 0; padding: 0;\">\n    <div style=\"max-width: 700px; margin: 20px auto; padding: 20px; border: 1px solid #ddd; border-radius: 8px; background-color: #f9f9f9;\">\n        <h1 style=\"font-size: 24px; color: #00549F; border-bottom: 2px solid #eee; padding-bottom: 10px;\">" ++
  title ++ "</h1>"

/-- `create_alert_email_body(title, added, removed, all_available)`. -/
def create_alert_email_body (title : String) (added removed all_available : List Residence) : String :=
  let html := bodyHeader title
  let html := if added = [] then html else
    html ++ "<h2 style=\"font-size: 20px; color: #28a745;\">Nouvelles résidences disponibles (" ++
      toString added.length ++ ")</h2>" ++ joinMap (format_residence_html · "#28a745") added
  let html := if removed = [] then html else
    html ++ "<h2 style=\"font-size: 20px; color: #dc3545;\">Résidences qui ne sont plus listées (" ++
      toString removed.length ++ ")</h2>" ++ joinMap (format_residence_html · "#dc3545") removed
  let html := html ++
    "<h2 style=\"font-size: 20px; border-top: 2px solid #eee; padding-top: 20px;\">Liste complète des résidences disponibles (" ++
    toString all_available.length ++ ")</h2>"
  let html := if all_available = [] then html ++ emptyListMsg
    else html ++ joinMap (format_residence_html · "black") all_available
  html ++ "</div></body></html>"

/-- `create_summary_email_body(title, added, removed, all_available)`. -/
def create_summary_email_body (title : String) (added removed all_available : List Residence) : String :=
  let html := bodyHeader title
  let html := html ++
    "<h2 style=\"font-size: 20px;\">Liste complète des résidences disponibles en fin de journée (" ++
    toString all_available.length ++ ")</h2>"
  let html := if all_available = [] then html ++ emptyListMsg
    else html ++ joinMap (format_residence_html · "black") all_available
  let html := if added = [] ∧ removed = [] then html ++ noChangeMsg else html
  let html := if added = [] then html else
    html ++ "<h2 style=\"font-size: 20px; color: #28a745; border-top: 2px solid #eee; margin-top: 20px; padding-top: 20px;\">Ajouté(s) aujourd\x27hui (" ++
      toString added.length ++ ")</h2>" ++ joinMap (format_residence_html · "#28a745") added
  let html := if removed = [] then html else
    html ++ "<h2 style=\"font-size: 20px; color: #dc3545; border-top: 2px solid #eee; margin-top: 20px; padding-top: 20px;\">Retiré(s) aujourd\x27hui (" ++
      toString removed.length ++ ")</h2>" ++ joinMap (format_residence_html · "#dc3545") removed
  html ++ "</div></body></html>"

/-- Substring test on character lists (scanning every suffix). -/
def hasSub (pat : List Char) : List Char → Bool
  | [] => pat.isPrefixOf []
  | c :: t => pat.isPrefixOf (c :: t) || hasSub pat t

/-- Substring test on strings. -/
def containsSub (s pat : String) : Bool :=
  hasSub pat.toList s.toList

/-! ## Report gate -/

/-- `is_report_time = (now_cet.hour == 22) or (now_cet.hour == 23 and now_cet.minute <= 30)`. -/
def is_report_time (h m : Nat) : Bool :=
  (h == 22) || ((h == 23) && decide (m ≤ 30))

/-- `sent_today = any(log.get('sent_date') == today_str for log in report_log)`. -/
def sent_today_check (log : List ReportEntry) (today : String) : Bool :=
  log.any (fun e => e.sent_date == today)

/-- The condition `is_report_time and not sent_today and send_summary` guarding
the daily report in `process_target`. -/
def should_send_report (h m : Nat) (log : List ReportEntry) (today : String) (flag : Bool) : Bool :=
  is_report_time h m && !(sent_today_check log today) && flag

/-- Modelled from the spec: the report window as stated there, the fixed daily
interval from 22:00 to 23:30 of the reference clock, at minute granularity
(the granularity the program reads). Used to compare the code's window test
against the spec's words. -/
def spec_inReportWindow (h m : Nat) : Prop :=
  22 * 60 ≤ 60 * h + m ∧ 60 * h + m ≤ 23 * 60 + 30

/-! ## Target processor -/

/-- `[dict(h) for h in (current_set - previous_set)]`, price-sorted: the
listings of the current snapshot absent (as whole records) from the previous
one, one per distinct record. -/
def added_list (cur prev : List Residence) : List Residence :=
  sortByKey resKey ((cur.filter (fun r => decide (itemsFinset r ∉ toSnapshotSet prev))).dedup)

/-- `[dict(h) for h in (previous_set - current_set)]`, price-sorted. -/
def removed_list (cur prev : List Residence) : List Residence :=
  sortByKey resKey ((prev.filter (fun r => decide (itemsFinset r ∉ toSnapshotSet cur))).dedup)

/-- An observable side effect of one run: an email handed to SMTP, or a CSV
write/append. `delivered` is false when the transport fails or credentials are
missing (`send_email` swallows both). -/
inductive Event where
  | sendEmail (subject body : String) (delivered : Bool)
  | writeSnapshot (rows : List Residence)
  | appendActivity (rows : List ActivityEntry)
  | appendRemoved (rows : List RemovedEntry)
  | appendReportLog (row : ReportEntry)
deriving DecidableEq, Repr

/-- Classifies the three persistence effects of the change-detection phase:
0 the snapshot overwrite, 1 the activity-log append, 2 the removal-log append. -/
def persistKind : Event → Option Nat
  | Event.writeSnapshot _ => some 0
  | Event.appendActivity _ => some 1
  | Event.appendRemoved _ => some 2
  | _ => none

/-- Is the event a persistence effect of the change-detection phase? -/
def isPersist (e : Event) : Bool :=
  (persistKind e).isSome

/-- The delivery flag of an email event. -/
def eventDelivered : Event → Option Bool
  | Event.sendEmail _ _ d => some d
  | _ => none

/-- Part 1 of `process_target`: change detection and notification. `fetch` is
the result of `scrape_crous_page` (`none` on a request error), `nowIso` the
ISO timestamp and `nowStamp` the formatted removal timestamp, `delivered`
whether the SMTP handoff of `send_email` succeeds. Returns the new persisted
state and the trace of side effects, in program order. -/
def process_part1 (cfg : Target) (nowIso nowStamp : String) (delivered : Bool)
    (st : TargetState) : Option (List Residence) → TargetState × List Event
  | none => (st, [])
  | some current_residences =>
    if toSnapshotSet current_residences = toSnapshotSet st.available then (st, [])
    else
      let addedL := added_list current_residences st.available
      let removedL := removed_list current_residences st.available
      let sorted_current := sortByKey resKey current_residences
      let alertEvents :=
        if cfg.send_immediate_alert then
          [Event.sendEmail (alertSubject cfg.folder_name addedL.length removedL.length)
            (create_alert_email_body "Changement de disponibilité !" addedL removedL sorted_current)
            delivered]
        else []
      let activityRows : List ActivityEntry :=
        addedL.map (fun r => ⟨nowIso, "added", r⟩) ++
          removedL.map (fun r => ⟨nowIso, "removed", r⟩)
      let activityEvents := if activityRows = [] then [] else [Event.appendActivity activityRows]
      let removedRows : List RemovedEntry := removedL.map (fun r => ⟨r, nowStamp⟩)
      let removedEvents := if removedL = [] then [] else [Event.appendRemoved removedRows]
      ({ available := sorted_current
         removedLog := st.removedLog ++ removedRows
         activityLog := st.activityLog ++ activityRows
         reportLog := st.reportLog },
       alertEvents ++ activityEvents ++ [Event.writeSnapshot sorted_current] ++ removedEvents)

/-- The sort key on an activity row's dict (its `price` column). -/
def activityKey (e : ActivityEntry) : Nat :=
  get_price_as_int (residence_items e.res)

/-- Part 2 of `process_target`: the daily summary report. `fetch2` is the
fresh scrape of this part (`none` on a request error, falling back to the
persisted snapshot), `delivered` whether the SMTP handoff succeeds. -/
def process_part2 (cfg : Target) (h m : Nat) (today nowTime : String)
    (fetch2 : Option (List Residence)) (delivered : Bool) (st : TargetState) :
    TargetState × List Event :=
  if should_send_report h m st.reportLog today cfg.send_daily_report then
    let today_activity := st.activityLog.filter (fun r => today.isPrefixOf r.timestamp_cet)
    let total_added_today := sortByKey activityKey (today_activity.filter (fun r => r.status == "added"))
    let total_removed_today := sortByKey activityKey (today_activity.filter (fun r => r.status == "removed"))
    let final_residences := sortByKey resKey (fetch2.getD st.available)
    let subject := "Rapport CROUS Bot du " ++ today ++ " (" ++ cfg.folder_name ++ ")"
    let body := create_summary_email_body ("Rapport du " ++ today ++ " (" ++ cfg.folder_name ++ ")")
      (total_added_today.map (fun e => e.res)) (total_removed_today.map (fun e => e.res))
      final_residences
    let entry : ReportEntry := ⟨today, nowTime⟩
    ({ st with reportLog := st.reportLog ++ [entry] },
     [Event.sendEmail subject body delivered, Event.appendReportLog entry])
  else (st, [])

/-- Arguments of one scheduler invocation of the report phase. -/
structure Invocation where
  hour : Nat
  minute : Nat
  nowTime : String
  fetch2 : Option (List Residence)
  delivered : Bool

/-- The state after one invocation of the report phase. -/
def part2Step (cfg : Target) (today : String) (st : TargetState) (inv : Invocation) : TargetState :=
  (process_part2 cfg inv.hour inv.minute today inv.nowTime inv.fetch2 inv.delivered st).1

/-- The failure-prone collaborators of one full `process_target` call:
the two scrape results, email delivery, and whether the CSV storage layer
succeeds (the Python file operations raise when it does not). -/
structure RunOracle where
  fetch1 : Option (List Residence)
  fetch2 : Option (List Residence)
  delivered : Bool
  storageOk : Bool

/-- One full `process_target` call. Fetch and email failures are swallowed
inside `scrape_crous_page` and `send_email`; a storage failure raises out of
`process_target`, modelled as `Except.error`. -/
def process_target_run (h m : Nat) (today nowIso nowStamp nowTime : String)
    (cfg : Target) (o : RunOracle) (st : TargetState) :
    Except String (TargetState × List Event) :=
  if o.storageOk then
    let r1 := process_part1 cfg nowIso nowStamp o.delivered st o.fetch1
    let r2 := process_part2 cfg h m today nowTime o.fetch2 o.delivered r1.1
    Except.ok (r2.1, r1.2 ++ r2.2)
  else Except.error (cfg.folder_name ++ ": storage error")

/-- The `__main__` loop over `TARGETS_TO_MONITOR`: each target is processed in
turn with no surrounding exception handler, so an uncaught error aborts the
remaining targets. Returns the folders of the targets processed to completion. -/
def run_targets (h m : Nat) (today nowIso nowStamp nowTime : String) :
    List (Target × RunOracle × TargetState) → Except String (List String)
  | [] => Except.ok []
  | (cfg, o, st) :: rest =>
    match process_target_run h m today nowIso nowStamp nowTime cfg o st with
    | Except.ok _ =>
      (run_targets h m today nowIso nowStamp nowTime rest).map (fun done => cfg.folder_name :: done)
    | Except.error e => Except.error e

/-! ## Concrete fixtures for witnesses and counterexamples -/

/-- A sample listing. -/
def resA : Residence := ⟨"Res A", "https://x/a", "15 €", "1 rue A", "T1"⟩

/-- A second sample listing. -/
def resB : Residence := ⟨"Res B", "https://x/b", "de 300 à 450 €", "2 rue B", "T2"⟩

/-- A target with alerts and daily reports enabled. -/
def cfgAlert : Target := ⟨"https://u", "data", true, true⟩

/-- A target with alerts disabled and daily reports enabled. -/
def cfgQuiet : Target := ⟨"https://u", "data", false, true⟩

/-- The empty persisted state (first run). -/
def st0 : TargetState := ⟨[], [], [], []⟩

/-- A state whose snapshot holds `resA` only. -/
def stA : TargetState := ⟨[resA], [], [], []⟩

/-- A second target, with a distinct storage folder. -/
def cfgB : Target := ⟨"https://v", "data_b", true, true⟩

/-- A state whose report log already records a send on 2026-10-12. -/
def stSent : TargetState := ⟨[], [], [], [⟨"2026-10-12", "21:00:00"⟩]⟩

/-! ## Helper lemmas -/

theorem itemsFinset_eq_iff (r1 r2 : Residence) :
    itemsFinset r1 = itemsFinset r2 ↔
      (r1.name = r2.name ∧ r1.link = r2.link ∧ r1.price = r2.price ∧
       r1.address = r2.address ∧ r1.details = r2.details) := by
  constructor
  · intro h
    simp only [itemsFinset, make_dict_hashable] at h
    have hmem : ∀ p : String × String, p ∈ residence_items r1 ↔ p ∈ residence_items r2 := by
      intro p
      rw [← List.mem_toFinset, ← List.mem_toFinset, h]
    have hn := (hmem ("name", r1.name)).1 (by simp [residence_items])
    have hl := (hmem ("link", r1.link)).1 (by simp [residence_items])
    have hp := (hmem ("price", r1.price)).1 (by simp [residence_items])
    have ha := (hmem ("address", r1.address)).1 (by simp [residence_items])
    have hd := (hmem ("details", r1.details)).1 (by simp [residence_items])
    simp [residence_items, Prod.ext_iff] at hn hl hp ha hd
    exact ⟨hn, hl, hp, ha, hd⟩
  · rintro ⟨h1, h2, h3, h4, h5⟩
    have : r1 = r2 := by cases r1; cases r2; simp_all
    rw [this]

theorem mem_toSnapshotSet {d : Finset (String × String)} {l : List Residence} :
    d ∈ toSnapshotSet l ↔ ∃ r ∈ l, itemsFinset r = d := by
  simp [toSnapshotSet]

theorem perm_toSnapshotSet {l l' : List Residence} (h : l.Perm l') :
    toSnapshotSet l = toSnapshotSet l' := by
  ext d
  simp only [mem_toSnapshotSet]
  constructor <;> rintro ⟨r, hr, rfl⟩ <;> exact ⟨r, by simp [h.mem_iff] at hr ⊢; exact hr, rfl⟩

theorem insertSorted_ne_nil {α : Type} (key : α → Nat) (a : α) (l : List α) :
    insertSorted key a l ≠ [] := by
  cases l with
  | nil => simp [insertSorted]
  | cons b bs =>
    simp only [insertSorted]
    split <;> simp

theorem sortByKey_eq_nil_iff {α : Type} (key : α → Nat) (l : List α) :
    sortByKey key l = [] ↔ l = [] := by
  cases l with
  | nil => simp [sortByKey]
  | cons a as => simp [sortByKey, insertSorted_ne_nil]

theorem sets_eq_of_lists_nil {cur prev : List Residence}
    (ha : added_list cur prev = []) (hr : removed_list cur prev = []) :
    toSnapshotSet cur = toSnapshotSet prev := by
  rw [added_list, sortByKey_eq_nil_iff, List.dedup_eq_nil, List.filter_eq_nil_iff] at ha
  rw [removed_list, sortByKey_eq_nil_iff, List.dedup_eq_nil, List.filter_eq_nil_iff] at hr
  apply Finset.Subset.antisymm <;> intro d hd <;> rw [mem_toSnapshotSet] at hd <;>
    obtain ⟨r, hrl, rfl⟩ := hd
  · have := ha r hrl
    simp only [decide_eq_true_eq] at this
    simpa using this
  · have := hr r hrl
    simp only [decide_eq_true_eq] at this
    simpa using this

theorem hasSub_nil_pat (l : List Char) : hasSub [] l = true := by
  induction l with
  | nil => rfl
  | cons c t ih => simp [hasSub, List.isPrefixOf, ih]

theorem isPrefixOf_append_ext {p l : List Char} (l' : List Char)
    (h : p.isPrefixOf l = true) : p.isPrefixOf (l ++ l') = true := by
  induction p generalizing l with
  | nil => simp [List.isPrefixOf]
  | cons x xs ih =>
    cases l with
    | nil => simp [List.isPrefixOf] at h
    | cons y ys =>
      simp only [List.isPrefixOf, Bool.and_eq_true] at h
      simp only [List.cons_append, List.isPrefixOf, Bool.and_eq_true]
      exact ⟨h.1, ih h.2⟩

theorem hasSub_self (p : List Char) : hasSub p p = true := by
  cases p with
  | nil => rfl
  | cons c t =>
    simp only [hasSub, Bool.or_eq_true]
    left
    have : ∀ q : List Char, q.isPrefixOf q = true := by
      intro q
      induction q with
      | nil => rfl
      | cons x xs ih => simp [List.isPrefixOf, ih]
    exact this _

theorem hasSub_right {p l : List Char} (l' : List Char) (h : hasSub p l = true) :
    hasSub p (l ++ l') = true := by
  induction l with
  | nil =>
    cases p with
    | nil => simp [hasSub_nil_pat]
    | cons x xs => simp [hasSub, List.isPrefixOf] at h
  | cons c t ih =>
    simp only [hasSub, Bool.or_eq_true] at h
    rcases h with h | h
    · simp only [List.cons_append, hasSub, Bool.or_eq_true]
      left
      have := isPrefixOf_append_ext (p := p) (l := c :: t) l' h
      simpa using this
    · simp only [List.cons_append, hasSub, Bool.or_eq_true]
      right
      exact ih h

theorem hasSub_left {p l : List Char} (l' : List Char) (h : hasSub p l = true) :
    hasSub p (l' ++ l) = true := by
  induction l' with
  | nil => simpa using h
  | cons c t ih =>
    simp only [List.cons_append, hasSub, Bool.or_eq_true]
    right
    exact ih

theorem containsSub_self (p : String) : containsSub p p = true :=
  hasSub_self p.toList

theorem containsSub_right (s t p : String) (h : containsSub s p = true) :
    containsSub (s ++ t) p = true := by
  simp only [containsSub, String.toList] at h ⊢
  have hdata : (s ++ t).data = s.data ++ t.data := by simp
  rw [hdata]
  exact hasSub_right t.data h

theorem containsSub_left (s t p : String) (h : containsSub t p = true) :
    containsSub (s ++ t) p = true := by
  simp only [containsSub, String.toList] at h ⊢
  have hdata : (s ++ t).data = s.data ++ t.data := by simp
  rw [hdata]
  exact hasSub_left s.data h

theorem mem_part2Step_reportLog {e : ReportEntry} {st : TargetState}
    (cfg : Target) (today : String) (inv : Invocation) (h : e ∈ st.reportLog) :
    e ∈ (part2Step cfg today st inv).reportLog := by
  simp only [part2Step, process_part2]
  split
  · simp [h]
  · exact h

theorem is_report_time_iff {h m : Nat} (hm : m < 60) :
    is_report_time h m = true ↔ spec_inReportWindow h m := by
  simp only [is_report_time, spec_inReportWindow, Bool.or_eq_true, Bool.and_eq_true,
    beq_iff_eq, decide_eq_true_eq]
  omega

theorem sent_today_iff (log : List ReportEntry) (today : String) :
    sent_today_check log today = true ↔ ∃ e ∈ log, e.sent_date = today := by
  simp [sent_today_check]

/-! ## Claims -/

/-- C1: the diff of two snapshots is computed as `added = current − previous`
and `removed = previous − current` on the sets of record frozensets; two
listings' frozensets are equal exactly when all five fields match, and the
order of the fields in a record does not change its frozenset. -/
theorem diff_uses_whole_record_equality :
    (∀ cur prev d, d ∈ added_set cur prev ↔ d ∈ toSnapshotSet cur ∧ d ∉ toSnapshotSet prev)
  ∧ (∀ cur prev d, d ∈ removed_set cur prev ↔ d ∈ toSnapshotSet prev ∧ d ∉ toSnapshotSet cur)
  ∧ (∀ r1 r2 : Residence,
      make_dict_hashable (residence_items r1) = make_dict_hashable (residence_items r2) ↔
        (r1.name = r2.name ∧ r1.link = r2.link ∧ r1.price = r2.price ∧
         r1.address = r2.address ∧ r1.details = r2.details))
  ∧ (∀ d1 d2 : List (String × String), d1.Perm d2 →
      make_dict_hashable d1 = make_dict_hashable d2) := by
  refine ⟨fun cur prev d => Finset.mem_sdiff, fun cur prev d => Finset.mem_sdiff,
    fun r1 r2 => itemsFinset_eq_iff r1 r2, fun d1 d2 h => ?_⟩
  ext p
  simp [make_dict_hashable, h.mem_iff]

/-- Witness for C1: a record's frozenset does not depend on field order
(scrape order versus CSV-header order of the same record). -/
theorem diff_uses_whole_record_equality_witness :
    make_dict_hashable [("name", "A"), ("link", "L"), ("price", "15 €"), ("address", "X"), ("details", "D")]
      = make_dict_hashable [("name", "A"), ("price", "15 €"), ("address", "X"), ("details", "D"), ("link", "L")] :=
  diff_uses_whole_record_equality.2.2.2 _ _ (by decide)

/-- C2: the delta is antisymmetric (`diff(A,B).added = diff(B,A).removed` and
conversely), `diff(A,A)` is empty in both directions, and reordering either
input snapshot never changes the diff. -/
theorem diff_algebraic_properties :
    (∀ A B : List Residence, added_set A B = removed_set B A ∧ removed_set A B = added_set B A)
  ∧ (∀ A : List Residence, added_set A A = ∅ ∧ removed_set A A = ∅)
  ∧ (∀ A A' B B' : List Residence, A.Perm A' → B.Perm B' →
      added_set A B = added_set A' B' ∧ removed_set A B = removed_set A' B') := by
  refine ⟨fun A B => ⟨rfl, rfl⟩, fun A => ⟨Finset.sdiff_self _, Finset.sdiff_self _⟩,
    fun A A' B B' hA hB => ?_⟩
  rw [added_set, removed_set, added_set, removed_set, perm_toSnapshotSet hA, perm_toSnapshotSet hB]
  exact ⟨rfl, rfl⟩

/-- Witness for C2: the diff of two concretely reordered snapshots. -/
theorem diff_algebraic_properties_witness :
    added_set [resA] [resB, resA] = added_set [resA] [resA, resB]
  ∧ removed_set [resA] [resB, resA] = removed_set [resA] [resA, resB] :=
  diff_algebraic_properties.2.2 [resA] [resA] [resB, resA] [resA, resB]
    (List.Perm.refl _) (by decide)

set_option maxRecDepth 100000 in
/-- C8 (counterexample): a 309-digit price string makes `float()` overflow
silently to infinity and `int(inf)` raise `OverflowError`, which the
`except (ValueError, TypeError, AttributeError)` clause does not catch: the
normalizer aborts the run instead of returning the sentinel 9999, refuting
the claim that no input string raises. -/
theorem price_normalizer_aborts_on_huge_price :
    get_price_as_int_py [("price", String.mk (List.replicate 309 '9') ++ " €")]
      = Except.error "OverflowError" := by rfl

set_option maxRecDepth 100000 in
/-- C8 (amended): the price normalizer maps `"15 €"` to 15,
`"de 300 à 450 €"` to 300, `"N/A"` to the sentinel 9999 and `"1 234,50 €"`
to 1234; every price string whose cleaned text makes `float()` raise
`ValueError` gets the sentinel 9999 without raising; but every price string
whose cleaned text reaches the double overflow threshold makes `float()`
return infinity and `int()` raise an uncaught `OverflowError`, aborting the
run. -/
theorem price_normalizer_examples_failure_and_overflow :
    get_price_as_int_py [("price", "15 €")] = Except.ok 15
  ∧ get_price_as_int_py [("price", "de 300 à 450 €")] = Except.ok 300
  ∧ get_price_as_int_py [("price", "N/A")] = Except.ok 9999
  ∧ get_price_as_int_py [("price", "1 234,50 €")] = Except.ok 1234
  ∧ (∀ s : String, pyFloatOfClean (cleanPricePy s) = PyFloat.err →
      parsePriceStringPy s = Except.ok 9999)
  ∧ (∀ s : String, pyFloatOfClean (cleanPricePy s) = PyFloat.inf →
      parsePriceStringPy s = Except.error "OverflowError") := by
  refine ⟨by rfl, by rfl, by rfl, by rfl, fun s h => ?_, fun s h => ?_⟩ <;>
    simp [parsePriceStringPy, h]

set_option maxRecDepth 100000 in
/-- Witness for C8 (amended): `"N/A"` concretely takes the `ValueError`
branch and gets the sentinel; the 309-nines price concretely takes the
overflow branch and aborts. -/
theorem price_normalizer_examples_failure_and_overflow_witness :
    parsePriceStringPy "N/A" = Except.ok 9999
  ∧ parsePriceStringPy (String.mk (List.replicate 309 '9') ++ " €")
      = Except.error "OverflowError" :=
  ⟨price_normalizer_examples_failure_and_overflow.2.2.2.2.1 "N/A" (by rfl),
   price_normalizer_examples_failure_and_overflow.2.2.2.2.2
     (String.mk (List.replicate 309 '9') ++ " €") (by rfl)⟩

/-- C10: a record dict with no `price` key at all gets the default string
`'0'`, which parses to 0 — not the sentinel 9999 — so such a listing sorts
first under the ascending price key, not last. -/
theorem missing_price_defaults_to_zero :
    ∀ residence : List (String × String), residence.lookup "price" = none →
      get_price_as_int residence = 0
    ∧ (∀ other : List (String × String), get_price_as_int residence ≤ get_price_as_int other)
    ∧ get_price_as_int residence ≠ 9999 := by
  intro residence h
  have h0 : get_price_as_int residence = 0 := by
    unfold get_price_as_int
    rw [h]
    decide
  refine ⟨h0, fun other => ?_, ?_⟩
  · rw [h0]; exact Nat.zero_le _
  · rw [h0]; decide

/-- Witness for C10: a dict having only a `name` key. -/
theorem missing_price_defaults_to_zero_witness :
    get_price_as_int [("name", "x")] = 0
  ∧ (get_price_as_int [("name", "x")] ≤ get_price_as_int [("price", "15 €")])
  ∧ get_price_as_int [("name", "x")] ≠ 9999 :=
  ⟨(missing_price_defaults_to_zero [("name", "x")] (by decide)).1,
   (missing_price_defaults_to_zero [("name", "x")] (by decide)).2.1 _,
   (missing_price_defaults_to_zero [("name", "x")] (by decide)).2.2⟩

/-- C3: once a report_log row for today exists, the daily-report check stays
false across arbitrarily many further invocations on the same date (which can
only append to the log); and, for clock minutes below 60, the check is true
exactly when the time lies in the 22:00–23:30 window, no send is recorded for
today, and the target's report flag is enabled. -/
theorem daily_report_gate_idempotent_and_window :
    (∀ (cfg : Target) (today : String) (st : TargetState) (invs : List Invocation) (h2 m2 : Nat),
      (∃ e ∈ st.reportLog, e.sent_date = today) →
      should_send_report h2 m2 (invs.foldl (part2Step cfg today) st).reportLog today
        cfg.send_daily_report = false)
  ∧ (∀ (h m : Nat) (log : List ReportEntry) (today : String) (flag : Bool), m < 60 →
      (should_send_report h m log today flag = true ↔
        (spec_inReportWindow h m ∧ (¬ ∃ e ∈ log, e.sent_date = today) ∧ flag = true))) := by
  constructor
  · intro cfg today st invs h2 m2 hmem
    have hpres : ∀ (invs : List Invocation) (st : TargetState),
        (∃ e ∈ st.reportLog, e.sent_date = today) →
        ∃ e ∈ (invs.foldl (part2Step cfg today) st).reportLog, e.sent_date = today := by
      intro invs
      induction invs with
      | nil => intro st h; exact h
      | cons inv rest ih =>
        intro st h
        obtain ⟨e, he, hd⟩ := h
        exact ih _ ⟨e, mem_part2Step_reportLog cfg today inv he, hd⟩
    have hsent := (sent_today_iff _ _).2 (hpres invs st hmem)
    simp [should_send_report, hsent]
  · intro h m log today flag hm
    simp only [should_send_report, Bool.and_eq_true, Bool.not_eq_true']
    rw [is_report_time_iff hm]
    constructor
    · rintro ⟨⟨hw, hs⟩, hf⟩
      refine ⟨hw, fun hex => ?_, hf⟩
      rw [(sent_today_iff log today).2 hex] at hs
      exact absurd hs (by simp)
    · rintro ⟨hw, hnex, hf⟩
      refine ⟨⟨hw, ?_⟩, hf⟩
      cases hb : sent_today_check log today with
      | false => rfl
      | true => exact absurd ((sent_today_iff log today).1 hb) hnex

/-- Witness for C3: with a send recorded on 2026-10-12 the gate is false at
22:00 that day; with an empty log the gate characterization holds at 22:00. -/
theorem daily_report_gate_idempotent_and_window_witness :
    should_send_report 22 0
        (([] : List Invocation).foldl (part2Step cfgAlert "2026-10-12") stSent).reportLog
        "2026-10-12" cfgAlert.send_daily_report = false
  ∧ (should_send_report 22 0 ([] : List ReportEntry) "2026-10-12" true = true ↔
      (spec_inReportWindow 22 0 ∧ (¬ ∃ e ∈ ([] : List ReportEntry), e.sent_date = "2026-10-12")
        ∧ true = true)) :=
  ⟨daily_report_gate_idempotent_and_window.1 cfgAlert "2026-10-12" stSent [] 22 0
      ⟨⟨"2026-10-12", "21:00:00"⟩, by simp [stSent], rfl⟩,
   daily_report_gate_idempotent_and_window.2 22 0 [] "2026-10-12" true (by decide)⟩

/-- C4 (counterexample): a concrete run at 22:00 with the gate open and a
failed email send (`delivered = false`, covering a transport error or missing
credentials — `send_email` swallows both and reports nothing to its caller)
still appends the report_log row, refuting the claim that the row is written
only when the send succeeds. -/
theorem report_log_row_appended_despite_failed_send :
    (process_part2 cfgAlert 22 0 "2026-10-12" "22:00:00" none false st0).1.reportLog
      = [⟨"2026-10-12", "22:00:00"⟩]
  ∧ (process_part2 cfgAlert 22 0 "2026-10-12" "22:00:00" none false st0).2.filterMap eventDelivered
      = [false] :=
  ⟨by decide, by decide⟩

/-- C4 (amended): the report_log row is appended exactly when the gate
(window, not sent today, flag) passes, regardless of whether the email send
succeeds — one entry per attempted daily report, not per successful one. -/
theorem report_log_appended_per_attempt :
    ∀ (cfg : Target) (h m : Nat) (today nowT : String) (f2 : Option (List Residence))
      (delivered : Bool) (st : TargetState),
      ((process_part2 cfg h m today nowT f2 delivered st).1.reportLog
        = st.reportLog ++ (if should_send_report h m st.reportLog today cfg.send_daily_report
            then [⟨today, nowT⟩] else []))
    ∧ ((process_part2 cfg h m today nowT f2 delivered st).1
        = (process_part2 cfg h m today nowT f2 true st).1) := by
  intro cfg h m today nowT f2 delivered st
  constructor <;> simp only [process_part2] <;> split <;> simp

/-- C5: when the fetched snapshot equals the persisted one as a set of
records, the change-detection phase emits no events (no alert email, no
write or append) and leaves the state untouched. -/
theorem no_change_produces_no_side_effects :
    ∀ (cfg : Target) (nowIso nowStamp : String) (delivered : Bool) (st : TargetState)
      (cur : List Residence),
      toSnapshotSet cur = toSnapshotSet st.available →
      process_part1 cfg nowIso nowStamp delivered st (some cur) = (st, []) := by
  intro cfg nowIso nowStamp delivered st cur h
  simp [process_part1, h]

/-- Witness for C5: refetching the persisted single-listing snapshot. -/
theorem no_change_produces_no_side_effects_witness :
    process_part1 cfgAlert "i" "s" true stA (some [resA]) = (stA, []) :=
  no_change_produces_no_side_effects cfgAlert "i" "s" true stA [resA] (by decide)

/-- C6 (counterexample): on a concrete non-empty diff with a removal, the
persistence effects happen in the order activity-append (1), snapshot
overwrite (0), removal-append (2) — not the claimed snapshot-first order
`[0, 1, 2]`. -/
theorem activity_append_precedes_snapshot_write :
    (process_part1 cfgQuiet "i" "s" true stA (some [resB])).2.filterMap persistKind = [1, 0, 2]
  ∧ ([1, 0, 2] : List Nat) ≠ [0, 1, 2] :=
  ⟨by decide, by decide⟩

/-- C6 (amended): on every non-empty diff the persistence effects run in the
order activity-log append, then snapshot overwrite, then (exactly when
`removed` is non-empty) removal-log append; and the persistence effects and
the resulting state are identical whether or not the alert email send
succeeds. -/
theorem persistence_order_in_code :
    ∀ (cfg : Target) (nowIso nowStamp : String) (delivered : Bool) (st : TargetState)
      (cur : List Residence),
      toSnapshotSet cur ≠ toSnapshotSet st.available →
      ((process_part1 cfg nowIso nowStamp delivered st (some cur)).2.filterMap persistKind
         = [1, 0] ++ (if removed_list cur st.available = [] then [] else [2]))
    ∧ ((process_part1 cfg nowIso nowStamp delivered st (some cur)).2.filter isPersist
         = (process_part1 cfg nowIso nowStamp true st (some cur)).2.filter isPersist)
    ∧ ((process_part1 cfg nowIso nowStamp delivered st (some cur)).1
         = (process_part1 cfg nowIso nowStamp true st (some cur)).1) := by
  intro cfg nowIso nowStamp delivered st cur h
  have hrows : (added_list cur st.available).map
        (fun r => (⟨nowIso, "added", r⟩ : ActivityEntry)) ++
      (removed_list cur st.available).map (fun r => ⟨nowIso, "removed", r⟩) ≠ [] := by
    intro hnil
    rw [List.append_eq_nil] at hnil
    exact h (sets_eq_of_lists_nil (List.map_eq_nil_iff.1 hnil.1) (List.map_eq_nil_iff.1 hnil.2))
  refine ⟨?_, ?_, ?_⟩
  · simp only [process_part1, if_neg h]
    by_cases hR : removed_list cur st.available = []
    · have hAdd : added_list cur st.available ≠ [] := by
        intro h0
        exact hrows (by simp [h0, hR])
      by_cases hA : cfg.send_immediate_alert <;>
        simp [hA, hR, hAdd, persistKind, List.filterMap_append]
    · by_cases hA : cfg.send_immediate_alert <;>
        simp [hA, hR, hrows, persistKind, List.filterMap_append]
  · simp only [process_part1, if_neg h]
    by_cases hA : cfg.send_immediate_alert <;>
      simp [hA, List.filter_append, isPersist, persistKind]
  · simp only [process_part1, if_neg h]

/-- Witness for C6 (amended): a concrete diff with one addition and one
removal, with a failing email send. -/
theorem persistence_order_in_code_witness :
    ((process_part1 cfgQuiet "i" "s" false stA (some [resB])).2.filterMap persistKind
       = [1, 0] ++ (if removed_list [resB] stA.available = [] then [] else [2]))
  ∧ ((process_part1 cfgQuiet "i" "s" false stA (some [resB])).2.filter isPersist
       = (process_part1 cfgQuiet "i" "s" true stA (some [resB])).2.filter isPersist)
  ∧ ((process_part1 cfgQuiet "i" "s" false stA (some [resB])).1
       = (process_part1 cfgQuiet "i" "s" true stA (some [resB])).1) :=
  persistence_order_in_code cfgQuiet "i" "s" false stA [resB] (by decide)

/-- C7 (counterexample): a storage failure on the first target makes the
uncaught exception propagate out of `process_target`, so the whole loop
aborts with an error and the second target is never processed — refuting the
claim that a storage error, like fetch and email errors, is caught per
target. -/
theorem storage_error_aborts_remaining_targets :
    run_targets 0 0 "d" "i" "s" "t"
      [(cfgAlert, ⟨none, none, true, false⟩, st0), (cfgB, ⟨none, none, true, true⟩, st0)]
      = Except.error "data: storage error" := by rfl

/-- C7 (amended): fetch failures and email failures are swallowed inside
`scrape_crous_page` and `send_email`, so whenever the storage layer succeeds
every configured target is processed to completion, whatever the fetch and
email outcomes; only a storage error aborts the remaining targets. -/
theorem fetch_email_failures_do_not_abort_targets :
    ∀ (h m : Nat) (today nowIso nowStamp nowTime : String)
      (runs : List (Target × RunOracle × TargetState)),
      (∀ x ∈ runs, x.2.1.storageOk = true) →
      run_targets h m today nowIso nowStamp nowTime runs
        = Except.ok (runs.map (fun x => x.1.folder_name)) := by
  intro h m today nowIso nowStamp nowTime runs hall
  induction runs with
  | nil => rfl
  | cons x rest ih =>
    obtain ⟨cfg, o, st⟩ := x
    have hok : o.storageOk = true := hall _ (List.mem_cons_self _ _)
    simp only [run_targets, process_target_run, hok, if_true]
    rw [ih (fun y hy => hall y (List.mem_cons_of_mem _ hy))]
    rfl

/-- Witness for C7 (amended): two targets, the first with a failed fetch and
a failed email send, both processed to completion. -/
theorem fetch_email_failures_do_not_abort_targets_witness :
    run_targets 22 0 "2026-10-12" "i" "s" "t"
      [(cfgAlert, ⟨none, none, false, true⟩, st0), (cfgB, ⟨some [resA], none, true, true⟩, st0)]
      = Except.ok ["data", "data_b"] :=
  fetch_email_failures_do_not_abort_targets 22 0 "2026-10-12" "i" "s" "t" _ (by decide)

set_option maxRecDepth 40000 in
/-- C9 (counterexample): a rendered summary view whose added section has zero
entries (added empty, removed and the full list non-empty) contains neither of
the program's two defined empty-state messages, nor even the added-section
heading: the empty section is omitted outright instead of rendering an
empty-state message. -/
theorem empty_section_renders_no_message :
    containsSub (create_summary_email_body "T" [] [resA] [resA]) emptyListMsg = false
  ∧ containsSub (create_summary_email_body "T" [] [resA] [resA]) noChangeMsg = false
  ∧ containsSub (create_summary_email_body "T" [] [resA] [resA]) "Ajouté" = false :=
  ⟨by decide, by decide, by decide⟩

set_option maxRecDepth 8000 in
/-- C9 (amended): both composer views are pure functions of their inputs
(they are embedded as plain string-building functions, exactly as in the
source); the full-availability section renders its defined empty-state
message whenever that list is empty, and the summary view renders the
defined no-change message when added and removed are both empty; empty
added or removed sections are omitted without a message. -/
theorem composer_empty_state_messages :
    (∀ (t : String) (added removed : List Residence),
        containsSub (create_alert_email_body t added removed []) emptyListMsg = true)
  ∧ (∀ (t : String) (added removed : List Residence),
        containsSub (create_summary_email_body t added removed []) emptyListMsg = true)
  ∧ (∀ (t : String) (alls : List Residence),
        containsSub (create_summary_email_body t [] [] alls) noChangeMsg = true) := by
  refine ⟨fun t added removed => ?_, fun t added removed => ?_, fun t alls => ?_⟩
  · simp only [create_alert_email_body]
    apply containsSub_right
    exact containsSub_left _ _ _ (containsSub_self _)
  · simp only [create_summary_email_body]
    by_cases ha : added = [] <;> by_cases hr : removed = [] <;> simp [ha, hr] <;>
      repeat
        first
        | exact containsSub_left _ _ _ (containsSub_self _)
        | apply containsSub_right
  · simp only [create_summary_email_body]
    apply containsSub_right
    exact containsSub_left _ _ _ (containsSub_self _)

end CrousNotifier
